import Mathlib

/-!
Verification of the gym-membership administration system (members, payments,
dashboard statistics) against its specification.

The definitions below are a shallow embedding of the TypeScript source:

* `src/backend/src/routes/members.ts` — member CRUD handlers (status
  derivation, email uniqueness, soft delete, list filtering, validators);
* the payments route file — payment CRUD, `mark-paid`, status/`paidAt` logic;
* the dashboard router (second document bundled in
  `src/backend/src/routes/workouts.ts`, lines 462-839) — the
  GET /dashboard/monthly-stats aggregation (raw SQL month group-bys and the
  `monthNames.map` formatter, lines 559-648);
* `src/frontend/src/pages/MemberManagement.tsx` — the two client-side
  in-memory member filters (`filteredMembers` in `MemberManagement` and in
  the `Index` page).

Conventions of the embedding:

* JavaScript `Date` values are modelled as `Int` milliseconds since the
  epoch (JS `Date` comparison and arithmetic is millisecond arithmetic).
* The Prisma store is modelled as a `List` of rows; `findUnique` becomes
  `List.find?` / `List.any`, `update` becomes a positional `List.map`, and
  `create` appends.  Thrown `BadRequestError` / `NotFoundError` /
  `ConflictError` values become `Except ApiError` results; a thrown error
  reaches the central error handler without any store write having happened.
* JS `String.prototype.toLowerCase` (ASCII) is modelled by `lowerStr`, and
  `String.prototype.includes` by `strContains`; Prisma
  `contains, mode: insensitive` is modelled by `icontains`.
* Request bodies are modelled as records of the fields the route validators
  accept; the case-normalization done by the express-validator
  `normalizeEmail` sanitizer is modelled by `normalizeEmail` (lower-casing).
-/

/-- Member lifecycle status, from the Prisma enum used throughout
`members.ts` (`ACTIVE`/`INACTIVE`/`EXPIRING_SOON`/`ARCHIVED`). -/
inductive MemberStatus where
  | ACTIVE
  | INACTIVE
  | EXPIRING_SOON
  | ARCHIVED
deriving DecidableEq, Repr

/-- Membership type enum (`ONE_MONTH`/`THREE_MONTH`/`SIX_MONTH`/`ONE_YEAR`). -/
inductive MembershipType where
  | ONE_MONTH
  | THREE_MONTH
  | SIX_MONTH
  | ONE_YEAR
deriving DecidableEq, Repr

/-- Gender enum (`MALE`/`FEMALE`/`OTHER`), from `validateMember`. -/
inductive Gender where
  | MALE
  | FEMALE
  | OTHER
deriving DecidableEq, Repr

/-- The string stored for a member status in the database, used by the
string comparisons in the Prisma where clause and the frontend filters. -/
def statusName : MemberStatus → String
  | .ACTIVE => "ACTIVE"
  | .INACTIVE => "INACTIVE"
  | .EXPIRING_SOON => "EXPIRING_SOON"
  | .ARCHIVED => "ARCHIVED"

/-- The string stored for a membership type in the database. -/
def typeName : MembershipType → String
  | .ONE_MONTH => "ONE_MONTH"
  | .THREE_MONTH => "THREE_MONTH"
  | .SIX_MONTH => "SIX_MONTH"
  | .ONE_YEAR => "ONE_YEAR"

/-- A member row, from the fields selected and mutated in `members.ts`.
Dates are `Int` epoch milliseconds. -/
structure Member where
  id : String
  name : String
  age : Nat
  gender : Gender
  email : String
  phone : String
  membershipType : MembershipType
  expiryDate : Int
  status : MemberStatus
  profilePicture : Option String
  joinDate : Int
deriving DecidableEq, Repr

/-- Errors thrown by the route handlers (`errorHandler.ts` classes used in
the member and payment routes). -/
inductive ApiError where
  | badRequest (msg : String)
  | notFound (msg : String)
  | conflict (msg : String)
deriving DecidableEq, Repr

/-- The `thirtyDaysFromNow` offset computed in the POST and PUT member
handlers: `30 * 24 * 60 * 60 * 1000` milliseconds. -/
def thirtyDaysMs : Int := 30 * 24 * 60 * 60 * 1000

/-- One day in milliseconds, `24 * 60 * 60 * 1000`. -/
def dayMs : Int := 24 * 60 * 60 * 1000

/-- Status derivation in the POST /members handler (`members.ts` lines
189–199): status starts as ACTIVE, becomes INACTIVE when
`expiryDate <= now` and EXPIRING_SOON when `expiryDate <=
thirtyDaysFromNow`. -/
def postMemberStatus (expiryDate now : Int) : MemberStatus :=
  if expiryDate ≤ now then .INACTIVE
  else if expiryDate ≤ now + thirtyDaysMs then .EXPIRING_SOON
  else .ACTIVE

/-- Status derivation in the PUT /members/:id handler (`members.ts` lines
255–268), applied whenever the body contains an `expiryDate`. -/
def putMemberStatus (expiryDate now : Int) : MemberStatus :=
  if expiryDate ≤ now then .INACTIVE
  else if expiryDate ≤ now + thirtyDaysMs then .EXPIRING_SOON
  else .ACTIVE

/-- Model of the case-normalization performed by the express-validator
`normalizeEmail` sanitizer on the member email validator chain, as ASCII
lower-casing of the address. -/
def normalizeEmail (e : String) : String := String.mk (e.data.map Char.toLower)

/-- The body of a POST /members request after validation
(`validateMember`): the validated fields, with `email` still raw (the
handler sees it normalized, see `postMember`). -/
structure MemberCreateBody where
  name : String
  age : Nat
  gender : Gender
  email : String
  phone : String
  membershipType : MembershipType
  expiryDate : Int
  profilePicture : Option String
deriving DecidableEq, Repr

/-- The body of a PUT /members/:id request after validation
(`validateMemberUpdate`): every validated field optional.  `email` is
modelled post-normalization. -/
structure MemberUpdate where
  name : Option String
  age : Option Nat
  gender : Option Gender
  email : Option String
  phone : Option String
  membershipType : Option MembershipType
  expiryDate : Option Int
  status : Option MemberStatus
deriving DecidableEq, Repr

/-- The POST /members handler (`members.ts` lines 170–217) over a store of
members: normalize the email, reject a duplicate with `ConflictError`,
otherwise derive the status from the expiry date and append the created
member (`id` generated by the store, `joinDate` defaulted to now). -/
def postMember (st : List Member) (body : MemberCreateBody) (newId : String)
    (now : Int) : Except ApiError (List Member × Member) :=
  let email := normalizeEmail body.email
  if st.any (fun m => m.email == email) then
    .error (.conflict "Member with this email already exists")
  else
    let m : Member :=
      { id := newId
        name := body.name
        age := body.age
        gender := body.gender
        email := email
        phone := body.phone
        membershipType := body.membershipType
        expiryDate := body.expiryDate
        status := postMemberStatus body.expiryDate now
        profilePicture := body.profilePicture
        joinDate := now }
    .ok (st ++ [m], m)

/-- The data written by the PUT /members/:id handler (`members.ts` lines
255–273): if the body contains an `expiryDate`, `updateData.status` is
overwritten with the status derived from it; Prisma `update` then merges
the present fields over the existing row. -/
def applyMemberUpdate (existing : Member) (u : MemberUpdate) (now : Int) :
    Member :=
  let statusUpd : Option MemberStatus :=
    match u.expiryDate with
    | some d => some (putMemberStatus d now)
    | none => u.status
  { id := existing.id
    name := u.name.getD existing.name
    age := u.age.getD existing.age
    gender := u.gender.getD existing.gender
    email := u.email.getD existing.email
    phone := u.phone.getD existing.phone
    membershipType := u.membershipType.getD existing.membershipType
    expiryDate := u.expiryDate.getD existing.expiryDate
    status := statusUpd.getD existing.status
    profilePicture := existing.profilePicture
    joinDate := existing.joinDate }

/-- The PUT /members/:id handler (`members.ts` lines 220–283) over a store:
missing id → `BadRequestError`; unknown member → `NotFoundError`; a body
email that differs from the current one and is already taken →
`ConflictError`; otherwise write `applyMemberUpdate`. -/
def putMemberStore (st : List Member) (id : String) (u : MemberUpdate)
    (now : Int) : Except ApiError (List Member × Member) :=
  if id == "" then .error (.badRequest "Member ID is required")
  else
    match st.find? (fun x => x.id == id) with
    | none => .error (.notFound "Member not found")
    | some existing =>
      let emailConflict :=
        match u.email with
        | some e => e != "" && e != existing.email
            && st.any (fun x => x.email == e)
        | none => false
      if emailConflict then
        .error (.conflict "Member with this email already exists")
      else
        let m' := applyMemberUpdate existing u now
        .ok (st.map (fun x => if x.id == id then m' else x), m')

/-- The DELETE /members/:id handler (`members.ts` lines 286–316): soft
delete — the `status` of the found member is set to `ARCHIVED`, nothing else is
written and the row is never removed. -/
def deleteMemberStore (st : List Member) (id : String) :
    Except ApiError (List Member) :=
  if id == "" then .error (.badRequest "Member ID is required")
  else
    match st.find? (fun x => x.id == id) with
    | none => .error (.notFound "Member not found")
    | some _ =>
      .ok (st.map (fun x =>
        if x.id == id then { x with status := .ARCHIVED } else x))

/-- The status field of a successful PUT /members/:id response. -/
def putResultStatus (r : Except ApiError (List Member × Member)) :
    Option MemberStatus :=
  match r with
  | .ok p => some p.2.status
  | .error _ => none

/-- ASCII model of JS `String.prototype.toLowerCase`. -/
def lowerStr (s : String) : String := String.mk (s.data.map Char.toLower)

/-- True when the second character list starts with the first one. -/
def leadMatch : List Char → List Char → Bool
  | [], _ => true
  | _ :: _, [] => false
  | a :: n, b :: h => a == b && leadMatch n h

/-- Substring test on character lists (any suffix of the haystack starts
with the needle; the empty needle always matches). -/
def hasSubstrList : List Char → List Char → Bool
  | [], n => n.isEmpty
  | a :: t, n => leadMatch n (a :: t) || hasSubstrList t n

/-- Model of JS `String.prototype.includes` (case-sensitive substring). -/
def strContains (hay needle : String) : Bool :=
  hasSubstrList hay.data needle.data

/-- Model of a Prisma insensitive-mode contains condition:
case-insensitive substring. -/
def icontains (field s : String) : Bool :=
  strContains (lowerStr field) (lowerStr s)

/-- The `where.OR` search clause built by GET /members (`members.ts` lines
63–69): case-insensitive `contains` on name, email and phone. -/
def serverSearchClause (m : Member) (s : String) : Bool :=
  icontains m.name s || icontains m.email s || icontains m.phone s

/-- The Prisma where clause built by GET /members (`members.ts` lines
61–77) applied to one member: absent parameters impose no constraint, and a
falsy (empty) `search` string is skipped by `if (search)`. -/
def serverWhere (m : Member) (search status membershipType : Option String) :
    Bool :=
  (match search with
   | none => true
   | some s => if s == "" then true else serverSearchClause m s)
  && (match status with
      | none => true
      | some st => statusName m.status == st)
  && (match membershipType with
      | none => true
      | some mt => typeName m.membershipType == mt)

/-- The `matchesSearch` condition of both client filters
(`MemberManagement.tsx`):
lower-cased substring match on name and email, raw (case-sensitive)
substring match on phone. -/
def mmSearchMatches (m : Member) (searchTerm : String) : Bool :=
  strContains (lowerStr m.name) (lowerStr searchTerm)
  || strContains (lowerStr m.email) (lowerStr searchTerm)
  || strContains m.phone searchTerm

/-- The `matchesStatus` condition of `filteredMembers` in
`MemberManagement` (lines
94–112): "all" shows everything except ARCHIVED, the four named selectors
map to the uppercase statuses, anything else falls back to `true`. -/
def mmStatusMatches (m : Member) (statusFilter : String) : Bool :=
  if statusFilter == "all" then !(statusName m.status == "ARCHIVED")
  else if statusFilter == "active" then statusName m.status == "ACTIVE"
  else if statusFilter == "inactive" then statusName m.status == "INACTIVE"
  else if statusFilter == "expiring" then
    statusName m.status == "EXPIRING_SOON"
  else if statusFilter == "archived" then statusName m.status == "ARCHIVED"
  else true

/-- The `matchesMembership` condition of both client filters: "all" or an
exact match. -/
def mmTypeMatches (m : Member) (membershipFilter : String) : Bool :=
  membershipFilter == "all" || typeName m.membershipType == membershipFilter

/-- The `filteredMembers` predicate of the `MemberManagement` page
(`MemberManagement.tsx` lines 87–116). -/
def mmFilter (m : Member) (searchTerm statusFilter membershipFilter : String) :
    Bool :=
  mmSearchMatches m searchTerm && mmStatusMatches m statusFilter
  && mmTypeMatches m membershipFilter

/-- The `filteredMembers` predicate of the `Index` page (same file, lines
300–307): the status selector is compared directly with the status string
of the member and "all" imposes no status constraint at all. -/
def indexFilter (m : Member)
    (searchTerm statusFilter membershipFilter : String) : Bool :=
  mmSearchMatches m searchTerm
  && (statusFilter == "all" || statusName m.status == statusFilter)
  && mmTypeMatches m membershipFilter

/-- Translation of a client selector value into a GET /members query
parameter: the "all" selector sends no parameter. -/
def selectorParam (sel : String) : Option String :=
  if sel == "all" then none else some sel

/-- The uppercase status string denoted by a `MemberManagement` status
selector word. -/
def selectorStatusName : String → String
  | "active" => "ACTIVE"
  | "inactive" => "INACTIVE"
  | "expiring" => "EXPIRING_SOON"
  | "archived" => "ARCHIVED"
  | s => s

/-- The filter predicate exactly as claim C4 words it: free-text empty or a
case-insensitive substring of name, email or phone; status selector "all"
(excluding ARCHIVED) or equality with the selected status; membership
selector "all" or exact match. -/
def c4ClaimPred (m : Member) (s st mt : String) : Bool :=
  (s == "" || icontains m.name s || icontains m.email s || icontains m.phone s)
  && (if st == "all" then !(statusName m.status == "ARCHIVED")
      else statusName m.status == selectorStatusName st)
  && (mt == "all" || typeName m.membershipType == mt)

/-- The claim-C4 predicate amended to what the code computes on the phone
field: the phone substring match is case-sensitive. -/
def c4AmendedPred (m : Member) (s st mt : String) : Bool :=
  (s == "" || mmSearchMatches m s)
  && (if st == "all" then !(statusName m.status == "ARCHIVED")
      else statusName m.status == selectorStatusName st)
  && (mt == "all" || typeName m.membershipType == mt)

/-- Payment status enum (`PENDING`/`PAID`/`OVERDUE`/`CANCELLED`). -/
inductive PaymentStatus where
  | PENDING
  | PAID
  | OVERDUE
  | CANCELLED
deriving DecidableEq, Repr

/-- Payment type enum (`MEMBERSHIP`/`PERSONAL_TRAINING`/`CLASS`/`OTHER`). -/
inductive PaymentType where
  | MEMBERSHIP
  | PERSONAL_TRAINING
  | CLASS
  | OTHER
deriving DecidableEq, Repr

/-- A payment row, from the fields read and written by the payments route
file.  `amount` is modelled as `Int` (its arithmetic plays no role in the
claims), dates as `Int` epoch milliseconds. -/
structure Payment where
  id : String
  memberId : String
  amount : Int
  paymentType : PaymentType
  status : PaymentStatus
  dueDate : Int
  paidAt : Option Int
  notes : Option String
deriving DecidableEq, Repr

/-- The body of a POST /payments request after validation
(`validatePayment`): memberId, amount, paymentType, dueDate, plus the
optional notes field passed through to the store. -/
structure PaymentCreateBody where
  memberId : String
  amount : Int
  paymentType : PaymentType
  dueDate : Int
  notes : Option String
deriving DecidableEq, Repr

/-- The body of a PUT /payments/:id request after validation
(`validatePaymentUpdate`): every validated field optional. -/
structure PaymentUpdate where
  amount : Option Int
  paymentType : Option PaymentType
  status : Option PaymentStatus
  dueDate : Option Int
  notes : Option String
deriving DecidableEq, Repr

/-- The POST /payments handler (payments route lines 145–198) over the
member store: unknown member → `NotFoundError`; otherwise the status is
`OVERDUE` when the due date is strictly in the past and `PENDING`
otherwise, and `paidAt` is never written at creation. -/
def postPayment (members : List Member) (body : PaymentCreateBody)
    (newId : String) (now : Int) : Except ApiError Payment :=
  match members.find? (fun m => m.id == body.memberId) with
  | none => .error (.notFound "Member not found")
  | some _ =>
    .ok { id := newId
          memberId := body.memberId
          amount := body.amount
          paymentType := body.paymentType
          status := if body.dueDate < now then .OVERDUE else .PENDING
          dueDate := body.dueDate
          paidAt := none
          notes := body.notes }

/-- The `updateData.status` mutation of the PUT /payments/:id handler
(lines 226–233): when the body carries a due date strictly in the past and
the body status is not `PAID`, the status written becomes `OVERDUE`. -/
def putPaymentStatusUpd (u : PaymentUpdate) (now : Int) :
    Option PaymentStatus :=
  match u.dueDate with
  | some d =>
    if d < now ∧ ¬ u.status = some .PAID then some .OVERDUE else u.status
  | none => u.status

/-- The PUT /payments/:id handler (lines 201–262) applied to the found
payment: after the due-date status mutation, `paidAt` is set to now exactly
when the (mutated) body status is `PAID` and the stored `paidAt` is still
unset; Prisma `update` then merges the present fields. -/
def putPayment (p : Payment) (u : PaymentUpdate) (now : Int) : Payment :=
  let statusUpd := putPaymentStatusUpd u now
  let paidAtNew : Option Int :=
    if statusUpd = some .PAID ∧ p.paidAt = none then some now else p.paidAt
  { id := p.id
    memberId := p.memberId
    amount := u.amount.getD p.amount
    paymentType := u.paymentType.getD p.paymentType
    status := statusUpd.getD p.status
    dueDate := u.dueDate.getD p.dueDate
    paidAt := paidAtNew
    notes := match u.notes with
             | some s => some s
             | none => p.notes }

/-- The PATCH /payments/:id/mark-paid handler (lines 301–349) applied to
the found payment: an already `PAID` payment is rejected with
`BadRequestError`; otherwise status becomes `PAID`, `paidAt` is stamped
with now, and `notes || payment.notes` keeps the old notes when the body
notes are absent or falsy (empty). -/
def markPaidPayment (p : Payment) (now : Int) (notes : Option String) :
    Except ApiError Payment :=
  if p.status = .PAID then
    .error (.badRequest "Payment is already marked as paid")
  else
    .ok { p with
          status := .PAID
          paidAt := some now
          notes := match notes with
                   | some s => if s == "" then p.notes else some s
                   | none => p.notes }

/-- The PATCH /payments/:id/mark-paid handler over a store of payments:
missing id → `BadRequestError`, unknown payment → `NotFoundError`, then
`markPaidPayment`; only a successful result writes the store. -/
def markPaidStore (st : List Payment) (id : String) (now : Int)
    (notes : Option String) : Except ApiError (List Payment) :=
  if id == "" then .error (.badRequest "Payment ID is required")
  else
    match st.find? (fun q => q.id == id) with
    | none => .error (.notFound "Payment not found")
    | some p =>
      match markPaidPayment p now notes with
      | .error e => .error e
      | .ok p' => .ok (st.map (fun q => if q.id == id then p' else q))

/-- The invariant of spec section 3: the paid timestamp is set exactly when
the payment status is `PAID`. -/
def paidAtInvariant (p : Payment) : Bool :=
  (p.paidAt != none) == (p.status == .PAID)

/-- A calendar date reduced to what the monthly-stats SQL reads through
`EXTRACT(YEAR FROM ...)` and `EXTRACT(MONTH FROM ...)`: a year and a
zero-based month (`Fin 12`; the 1-based SQL month number is
`month.val + 1`). -/
structure SimpleDate where
  year : Int
  month : Fin 12
deriving DecidableEq, Repr

/-- A row of the `members` table as read by the monthly-stats SQL: its
`joinDate`. -/
structure MemberRow where
  joinDate : SimpleDate
deriving DecidableEq, Repr

/-- A row of the `payments` table as read by the monthly-stats SQL. -/
structure PaymentRow where
  amount : Int
  status : PaymentStatus
  paidAt : Option SimpleDate
deriving DecidableEq, Repr

/-- A row of the `check_ins` table as read by the monthly-stats SQL. -/
structure CheckInRow where
  date : SimpleDate
deriving DecidableEq, Repr

/-- A JavaScript number as produced by the monthly-stats formatter: an
actual numeric value, or NaN (the result of `Number(undefined)`). -/
inductive JsNum where
  | num (v : Int)
  | nan
deriving DecidableEq, Repr

/-- The `monthNames` array of the monthly-stats handler (dashboard router
bundled in `workouts.ts`, lines 609-612). -/
def monthNames : List String :=
  ["Jan", "Feb", "Mar", "Apr", "May", "Jun",
   "Jul", "Aug", "Sep", "Oct", "Nov", "Dec"]

/-- The first raw query of GET /dashboard/monthly-stats (`workouts.ts`
lines 571-579): members of the reference year grouped by join month with a
`COUNT(*)` per group.  A group row `(month, count)` exists exactly for the
months having at least one matching member (SQL `GROUP BY` emits no empty
groups), keyed by the 1-based month number. -/
def membersMonthRows (year : Int) (members : List MemberRow) :
    List (Nat × Nat) :=
  (List.range 12).filterMap (fun j =>
    if members.countP (fun m =>
        m.joinDate.year == year && m.joinDate.month.val == j) == 0 then none
    else some (j + 1, members.countP (fun m =>
        m.joinDate.year == year && m.joinDate.month.val == j)))

/-- The second raw query (lines 586-595): `PAID` payments of the year
grouped by the month of `paidAt`, with `SUM(amount)` per group; again a
group exists only for months with at least one matching payment row. -/
def revenueMonthRows (year : Int) (payments : List PaymentRow) :
    List (Nat × Int) :=
  (List.range 12).filterMap (fun j =>
    if (payments.filter (fun p =>
        p.status == .PAID
        && (match p.paidAt with
            | some d => d.year == year && d.month.val == j
            | none => false))).isEmpty then none
    else some (j + 1, ((payments.filter (fun p =>
        p.status == .PAID
        && (match p.paidAt with
            | some d => d.year == year && d.month.val == j
            | none => false))).map PaymentRow.amount).sum))

/-- The third raw query (lines 598-606): check-ins of the year grouped by
month with a `COUNT(*)` per group.  The count column is aliased `checkIns`
in the SQL — an unquoted alias that PostgreSQL folds to lowercase
`checkins` in the result rows. -/
def checkInMonthRows (year : Int) (checkIns : List CheckInRow) :
    List (Nat × Nat) :=
  (List.range 12).filterMap (fun j =>
    if checkIns.countP (fun c =>
        c.date.year == year && c.date.month.val == j) == 0 then none
    else some (j + 1, checkIns.countP (fun c =>
        c.date.year == year && c.date.month.val == j)))

/-- The formatter lookup `monthData ? Number(monthData.newmembers) : 0`
(`workouts.ts` lines 619-620; the code correctly reads the lowercase-folded
`newmembers` alias): the group row of the wanted month number, or zero when
absent. -/
def monthRowLookupNat (rows : List (Nat × Nat)) (monthNumber : Nat) : Nat :=
  match rows.find? (fun s => s.1 == monthNumber) with
  | some s => s.2
  | none => 0

/-- The formatter lookup `revenueData ? Number(revenueData.revenue) : 0`
(lines 622-623); the later `parseFloat(revenue.toString())` is the identity
on these integer amounts. -/
def monthRowLookupInt (rows : List (Nat × Int)) (monthNumber : Nat) : Int :=
  match rows.find? (fun s => s.1 == monthNumber) with
  | some s => s.2
  | none => 0

/-- The formatter lookup `checkInData ? Number(checkInData.checkIns) : 0`
(lines 625-626).  The SQL aliased the count `checkIns`, but PostgreSQL
folds the unquoted alias to `checkins`, so on a month that has check-in
rows the property the code reads is `undefined` and `Number(undefined)` is
NaN; a month without rows still reports 0. -/
def monthRowLookupCheckIns (rows : List (Nat × Nat)) (monthNumber : Nat) :
    JsNum :=
  match rows.find? (fun s => s.1 == monthNumber) with
  | some _ => JsNum.nan
  | none => JsNum.num 0

/-- One element of the `formattedStats` array built by the monthly-stats
handler (`workouts.ts` lines 615-636). -/
structure MonthlyStatPoint where
  month : String
  monthNumber : Nat
  newMembers : Nat
  revenue : Int
  checkIns : JsNum
  year : Int
deriving DecidableEq, Repr

/-- The GET /dashboard/monthly-stats handler (dashboard router bundled in
`workouts.ts` after the document separator, lines 559-648), after the
reference year is fixed: run the three grouped queries, then
`monthNames.map((month, index) => ...)` builds one point per calendar
month, reading each group row or defaulting to zero (NaN for check-in
months with rows, see `monthRowLookupCheckIns`).  The JS map runs over
`monthNames` with its index; here the map runs over the twelve indices and
reads the label with `getD` — `monthNames` has exactly twelve entries, so
the two agree. -/
def monthlyStatsHandler (year : Int) (members : List MemberRow)
    (payments : List PaymentRow) (checkIns : List CheckInRow) :
    List MonthlyStatPoint :=
  (List.range 12).map (fun index =>
    { month := monthNames.getD index ""
      monthNumber := index + 1
      newMembers := monthRowLookupNat (membersMonthRows year members)
        (index + 1)
      revenue := monthRowLookupInt (revenueMonthRows year payments)
        (index + 1)
      checkIns := monthRowLookupCheckIns (checkInMonthRows year checkIns)
        (index + 1)
      year := year })

/-- The `isIn` list of the membershipType query validator in GET /members
(`members.ts` line 37) — note the leading space in " SIX_MONTH". -/
def memberQueryMembershipTypes : List String :=
  ["ONE_MONTH", "THREE_MONTH", " SIX_MONTH", "ONE_YEAR"]

/-- The `isIn` list of the status query validator in GET /members
(line 36). -/
def memberQueryStatuses : List String :=
  ["ACTIVE", "INACTIVE", "EXPIRING_SOON", "ARCHIVED"]

/-- The `isIn` list of the membershipType body validator in
`validateMember` (`members.ts` line 16), used by POST /members. -/
def memberBodyMembershipTypes : List String :=
  ["ONE_MONTH", "THREE_MONTH", "SIX_MONTH", "ONE_YEAR"]

/-- The `isIn` list of the optional membershipType body validator in
`validateMemberUpdate` (`members.ts` line 26), used by PUT /members/:id. -/
def memberUpdateMembershipTypes : List String :=
  ["ONE_MONTH", "THREE_MONTH", "SIX_MONTH", "ONE_YEAR"]

/-- The validation step of GET /members (`members.ts` lines 32–46) for the
enum query parameters: a present `status` or `membershipType` value outside
its `isIn` list makes `validationResult` non-empty and the handler throws
`BadRequestError` with the first error message (`isIn` without
`withMessage` reports `Invalid value`).  The numeric and sort parameters
are modelled as absent. -/
def getMembersQueryError (status membershipType : Option String) :
    Option ApiError :=
  if (match status with
      | some st => !(memberQueryStatuses.contains st)
      | none => false) then
    some (.badRequest "Invalid value")
  else if (match membershipType with
           | some mt => !(memberQueryMembershipTypes.contains mt)
           | none => false) then
    some (.badRequest "Invalid value")
  else
    none

/-- An ARCHIVED member used as a concrete store row. -/
def archSample : Member :=
  { id := "m1", name := "Bob", age := 30, gender := .MALE,
    email := "bob@gym.io", phone := "0123456789",
    membershipType := .ONE_MONTH, expiryDate := 0, status := .ARCHIVED,
    profilePicture := none, joinDate := 0 }

/-- A PUT /members body that only moves the expiry date 31 days into the
future. -/
def uExpiryFuture : MemberUpdate :=
  { name := none, age := none, gender := none, email := none, phone := none,
    membershipType := none, expiryDate := some (thirtyDaysMs + dayMs),
    status := none }

/-- A PUT /members body that carries no field at all. -/
def uNoChange : MemberUpdate :=
  { name := none, age := none, gender := none, email := none, phone := none,
    membershipType := none, expiryDate := none, status := none }

/-- An ACTIVE member whose phone and relevant strings are lower-case. -/
def plainSample : Member :=
  { id := "m3", name := "Bob Stone", age := 28, gender := .MALE,
    email := "bob.stone@gym.io", phone := "0123456789",
    membershipType := .ONE_YEAR, expiryDate := thirtyDaysMs + dayMs,
    status := .ACTIVE, profilePicture := none, joinDate := 0 }

/-- An ACTIVE member whose phone contains upper-case letters. -/
def phoneCaseSample : Member :=
  { id := "m2", name := "Zed", age := 40, gender := .OTHER,
    email := "zed@gym.io", phone := "98AB76543210",
    membershipType := .ONE_YEAR, expiryDate := 0, status := .ACTIVE,
    profilePicture := none, joinDate := 0 }

/-- A payment already marked PAID, with its paid timestamp set. -/
def paidSample : Payment :=
  { id := "p1", memberId := "m3", amount := 500,
    paymentType := .MEMBERSHIP, status := .PAID, dueDate := 10,
    paidAt := some 5, notes := none }

/-- A PUT /payments body that only changes the status to CANCELLED. -/
def updCancel : PaymentUpdate :=
  { amount := none, paymentType := none, status := some .CANCELLED,
    dueDate := none, notes := none }

/-- A PUT /payments body that only changes the status to PAID. -/
def updToPaid : PaymentUpdate :=
  { amount := none, paymentType := none, status := some .PAID,
    dueDate := none, notes := none }

/-- A POST /payments body for member `m3`. -/
def payBody : PaymentCreateBody :=
  { memberId := "m3", amount := 300, paymentType := .MEMBERSHIP,
    dueDate := 50, notes := none }

/-- The payment `postPayment [plainSample] payBody "p2" 0` creates. -/
def createdPay : Payment :=
  { id := "p2", memberId := "m3", amount := 300,
    paymentType := .MEMBERSHIP, status := .PENDING, dueDate := 50,
    paidAt := none, notes := none }

/-- The payment `markPaidPayment createdPay 60 none` produces. -/
def markedPay : Payment :=
  { id := "p2", memberId := "m3", amount := 300,
    paymentType := .MEMBERSHIP, status := .PAID, dueDate := 50,
    paidAt := some 60, notes := none }

/-- A POST /members body with a mixed-case email. -/
def bodyAlice : MemberCreateBody :=
  { name := "Alice A", age := 25, gender := .FEMALE,
    email := "Alice@Gym.io", phone := "0111111111",
    membershipType := .SIX_MONTH, expiryDate := 100,
    profilePicture := none }

/-- A second POST /members body whose email differs from `bodyAlice` only
in letter case. -/
def bodyAlice2 : MemberCreateBody :=
  { name := "Alice B", age := 26, gender := .FEMALE,
    email := "alice@gym.IO", phone := "0222222222",
    membershipType := .ONE_MONTH, expiryDate := 200,
    profilePicture := none }

theorem hasSubstr_empty_needle (h : List Char) : hasSubstrList h [] = true := by
  cases h with
  | nil => rfl
  | cons a t => rfl

theorem strContains_lower_empty (x : String) :
    strContains x (lowerStr "") = true :=
  hasSubstr_empty_needle x.data

theorem mmSearch_absorb (m : Member) (s : String) :
    (s == "" || mmSearchMatches m s) = mmSearchMatches m s := by
  cases hse : s == ""
  · simp
  · have hs0 : s = "" := beq_iff_eq.mp hse
    subst hs0
    simp [mmSearchMatches, strContains_lower_empty]

/-- Claim C1: for every expiry date `d` and reference time `t`, the status
computed by the POST /members and PUT /members/:id handlers is INACTIVE iff
`d ≤ t`, EXPIRING_SOON iff `t < d ≤ t + 30` days and ACTIVE iff
`d > t + 30` days; in particular an expiry 10 days after `t` yields
EXPIRING_SOON and an expiry 1 day before `t` yields INACTIVE. -/
theorem c1_status_derivation (d t : Int) :
    (postMemberStatus d t = .INACTIVE ↔ d ≤ t)
    ∧ (postMemberStatus d t = .EXPIRING_SOON ↔ (t < d ∧ d ≤ t + thirtyDaysMs))
    ∧ (postMemberStatus d t = .ACTIVE ↔ t + thirtyDaysMs < d)
    ∧ putMemberStatus d t = postMemberStatus d t
    ∧ postMemberStatus (t + 10 * dayMs) t = .EXPIRING_SOON
    ∧ postMemberStatus (t - dayMs) t = .INACTIVE := by
  unfold postMemberStatus putMemberStatus thirtyDaysMs dayMs
  refine ⟨?_, ?_, ?_, ?_, ?_, ?_⟩ <;> split_ifs <;> simp_all <;> omega

/-- Claim C10: GET /members rejects `membershipType=SIX_MONTH` with a
BadRequest validation error, because the accepted list of the query
validator contains " SIX_MONTH" (leading space) instead of "SIX_MONTH",
even though "SIX_MONTH" is accepted by the POST and PUT body
validators. -/
theorem c10_six_month_query_rejected :
    getMembersQueryError none (some "SIX_MONTH")
      = some (.badRequest "Invalid value")
    ∧ memberQueryMembershipTypes.contains "SIX_MONTH" = false
    ∧ memberQueryMembershipTypes.contains " SIX_MONTH" = true
    ∧ memberBodyMembershipTypes.contains "SIX_MONTH" = true
    ∧ memberUpdateMembershipTypes.contains "SIX_MONTH" = true := by
  decide

/-- Claim C2 counterexample: a PUT /members/:id carrying only a far-future
`expiryDate` on an ARCHIVED member recomputes the status to ACTIVE — the
handler has no ARCHIVED guard, so archival is not sticky under expiry
updates. -/
theorem c2_counterexample :
    archSample.status = .ARCHIVED
    ∧ (applyMemberUpdate archSample uExpiryFuture 0).status = .ACTIVE
    ∧ putResultStatus (putMemberStore [archSample] "m1" uExpiryFuture 0)
        = some .ACTIVE := by
  decide

/-- Claim C2 as amended: the PUT handler preserves an ARCHIVED status only
when the body contains neither an `expiryDate` nor a `status` (a body
`expiryDate` makes it recompute the status unconditionally). -/
theorem c2_amended (st : List Member) (id : String) (u : MemberUpdate)
    (now : Int) (m : Member)
    (hid : (id == "") = false)
    (hfind : st.find? (fun x => x.id == id) = some m)
    (harch : m.status = .ARCHIVED)
    (hexp : u.expiryDate = none) (hstat : u.status = none)
    (hemail : u.email = none) :
    putResultStatus (putMemberStore st id u now) = some .ARCHIVED := by
  simp [putMemberStore, hid, hfind, hemail, putResultStatus,
        applyMemberUpdate, hexp, hstat, harch]

theorem c2_amended_witness :
    putResultStatus (putMemberStore [archSample] "m1" uNoChange 0)
      = some .ARCHIVED :=
  c2_amended [archSample] "m1" uNoChange 0 archSample rfl rfl rfl rfl rfl rfl


/-- Claim C3 counterexample: on an ARCHIVED member with the triple
(search "", status selector "all", type selector "all"), the server-side
where clause and the Index page filter select the member while the
MemberManagement filter excludes it, so the three do not agree. -/
theorem c3_counterexample :
    mmFilter archSample "" "all" "all" = false
    ∧ indexFilter archSample "" "all" "all" = true
    ∧ serverWhere archSample (some "")
        (selectorParam "all") (selectorParam "all") = true := by
  decide

/-- Claim C3 as amended: for the status selector "all" the three filters
agree on every member that is not ARCHIVED, provided the search string and
the member phone are already lower-case (the server matches the phone
case-insensitively, the clients case-sensitively); ARCHIVED members under
"all" are excluded only by the MemberManagement filter. -/
theorem c3_amended (m : Member) (s mt : String)
    (hst : m.status ≠ .ARCHIVED)
    (hs : lowerStr s = s) (hp : lowerStr m.phone = m.phone) :
    serverWhere m (some s) (selectorParam "all") (selectorParam mt)
      = mmFilter m s "all" mt
    ∧ mmFilter m s "all" mt = indexFilter m s "all" mt := by
  have hstS : (statusName m.status == "ARCHIVED") = false := by
    cases hms : m.status
    · rfl
    · rfl
    · rfl
    · exact absurd hms hst
  constructor
  · cases hse : s == ""
    · cases hmt : mt == "all" <;>
        simp [serverWhere, mmFilter, selectorParam, mmStatusMatches,
              mmTypeMatches, serverSearchClause, mmSearchMatches, icontains,
              hse, hmt, hstS, hp, hs]
    · have hs0 : s = "" := beq_iff_eq.mp hse
      subst hs0
      cases hmt : mt == "all" <;>
        simp [serverWhere, mmFilter, selectorParam, mmStatusMatches,
              mmTypeMatches, mmSearchMatches, hmt, hstS,
              strContains_lower_empty]
  · simp [mmFilter, indexFilter, mmStatusMatches, hstS]

theorem c3_amended_witness :
    serverWhere plainSample (some "bob")
        (selectorParam "all") (selectorParam "all")
      = mmFilter plainSample "bob" "all" "all"
    ∧ mmFilter plainSample "bob" "all" "all"
      = indexFilter plainSample "bob" "all" "all" :=
  c3_amended plainSample "bob" "all" (by decide) (by decide) (by decide)

/-- Claim C4 counterexample: with search "ab" the claimed predicate
(case-insensitive on the phone) accepts a member whose phone is
"98AB76543210", but the MemberManagement filter matches the phone
case-sensitively and rejects it. -/
theorem c4_counterexample :
    c4ClaimPred phoneCaseSample "ab" "all" "all" = true
    ∧ mmFilter phoneCaseSample "ab" "all" "all" = false := by
  decide

/-- Claim C4 as amended: for the five recognised status selectors the
MemberManagement predicate is: (search empty OR case-insensitive substring
of name or email OR case-sensitive substring of the phone) AND (selector
"all" excluding ARCHIVED, or status equal to the selected status) AND
(type selector "all" or exact match). -/
theorem c4_amended (m : Member) (s st mt : String)
    (hsel : st = "all" ∨ st = "active" ∨ st = "inactive" ∨ st = "expiring"
      ∨ st = "archived") :
    mmFilter m s st mt = c4AmendedPred m s st mt := by
  have habs := mmSearch_absorb m s
  rcases hsel with h | h | h | h | h <;> subst h <;>
    simp only [mmFilter, c4AmendedPred, habs] <;> rfl

theorem c4_amended_witness :
    mmFilter plainSample "bob" "active" "all"
      = c4AmendedPred plainSample "bob" "active" "all" :=
  c4_amended plainSample "bob" "active" "all" (Or.inr (Or.inl rfl))

/-- Claim C5 counterexample: a PUT /payments/:id that changes the status
of a PAID payment to CANCELLED leaves `paidAt` set, so the biconditional
"paid timestamp set iff status = PAID" is not preserved by update. -/
theorem c5_counterexample :
    paidAtInvariant paidSample = true
    ∧ (putPayment paidSample updCancel 100).status = .CANCELLED
    ∧ (putPayment paidSample updCancel 100).paidAt = some 5
    ∧ paidAtInvariant (putPayment paidSample updCancel 100) = false := by
  decide

/-- Claim C5 as amended: creation and mark-paid establish the invariant
"paid timestamp set iff status = PAID", and PUT /payments/:id preserves its
forward direction (a resulting PAID status has `paidAt` set); PUT does not
clear `paidAt` on a status change away from PAID, so only that direction
survives updates. -/
theorem c5_amended :
    (∀ (ms : List Member) (body : PaymentCreateBody) (newId : String)
        (now : Int) (p : Payment),
      postPayment ms body newId now = .ok p → paidAtInvariant p = true)
    ∧ (∀ (p : Payment) (now : Int) (notes : Option String) (q : Payment),
      markPaidPayment p now notes = .ok q → paidAtInvariant q = true)
    ∧ (∀ (p : Payment) (u : PaymentUpdate) (now : Int),
      paidAtInvariant p = true → (putPayment p u now).status = .PAID →
        (putPayment p u now).paidAt ≠ none) := by
  refine ⟨?_, ?_, ?_⟩
  · intro ms body newId now p h
    unfold postPayment at h
    cases hfind : ms.find? (fun m => m.id == body.memberId) with
    | none => rw [hfind] at h; exact absurd h (by simp)
    | some q =>
      rw [hfind] at h
      simp only [Except.ok.injEq] at h
      subst h
      unfold paidAtInvariant
      split <;> rfl
  · intro p now notes q h
    unfold markPaidPayment at h
    split at h
    · exact absurd h (by simp)
    · simp only [Except.ok.injEq] at h
      subst h
      rfl
  · intro p u now hinv hstat
    rcases hu : putPaymentStatusUpd u now with _ | s
    · have h1 : (putPayment p u now).status = p.status := by
        simp [putPayment, hu]
      rw [h1] at hstat
      have hpa : p.paidAt ≠ none := by
        unfold paidAtInvariant at hinv
        rw [hstat] at hinv
        simp at hinv
        intro hcon
        rw [hcon] at hinv
        exact absurd hinv (by simp)
      have h2 : (putPayment p u now).paidAt = p.paidAt := by
        simp [putPayment, hu]
      rw [h2]
      exact hpa
    · have hs : s = .PAID := by
        by_contra hne
        have h1 : (putPayment p u now).status = s := by
          simp [putPayment, hu]
        rw [h1] at hstat
        exact hne hstat
      subst hs
      cases hpa : p.paidAt with
      | none => simp [putPayment, hu, hpa]
      | some v => simp [putPayment, hu, hpa]

theorem c5_amended_witness :
    paidAtInvariant createdPay = true
    ∧ paidAtInvariant markedPay = true
    ∧ (putPayment createdPay updToPaid 70).paidAt ≠ none :=
  ⟨c5_amended.1 [plainSample] payBody "p2" 0 createdPay rfl,
   c5_amended.2.1 createdPay 60 none markedPay rfl,
   c5_amended.2.2 createdPay updToPaid 70 (by decide) (by decide)⟩

/-- Claim C6: PATCH /payments/:id/mark-paid on a payment whose status is
already PAID fails with the BadRequest error "Payment is already marked as
paid"; since the handler throws before any `update` call, the stored
payment is unchanged and there is no second `paidAt` overwrite. -/
theorem c6_mark_paid_already_paid (st : List Payment) (id : String)
    (now : Int) (notes : Option String) (p : Payment)
    (hid : (id == "") = false)
    (hfind : st.find? (fun q => q.id == id) = some p)
    (hpaid : p.status = .PAID) :
    markPaidStore st id now notes
      = .error (.badRequest "Payment is already marked as paid") := by
  simp [markPaidStore, hid, hfind, markPaidPayment, hpaid]

theorem c6_mark_paid_already_paid_witness :
    markPaidStore [paidSample] "p1" 100 none
      = .error (.badRequest "Payment is already marked as paid") :=
  c6_mark_paid_already_paid [paidSample] "p1" 100 none paidSample
    rfl rfl rfl

/-- Claim C7: two successive POST /members requests carrying the same
case-normalized email yield exactly one created member and one
ConflictError that creates nothing: the first succeeds and grows the store
by one, the second hits the uniqueness check and throws. -/
theorem c7_email_uniqueness (st : List Member) (b1 b2 : MemberCreateBody)
    (id1 id2 : String) (t1 t2 : Int)
    (hsame : normalizeEmail b1.email = normalizeEmail b2.email)
    (hfresh : st.any (fun m => m.email == normalizeEmail b1.email) = false) :
    ∃ st' m1, postMember st b1 id1 t1 = .ok (st', m1)
      ∧ st'.length = st.length + 1
      ∧ postMember st' b2 id2 t2
          = .error (.conflict "Member with this email already exists") := by
  unfold postMember
  simp only [hfresh, Bool.false_eq_true, if_false]
  refine ⟨_, _, rfl, by simp, ?_⟩
  simp [List.any_append, ← hsame, hfresh]

theorem c7_email_uniqueness_witness :
    ∃ st' m1, postMember [] bodyAlice "a1" 0 = .ok (st', m1)
      ∧ st'.length = ([] : List Member).length + 1
      ∧ postMember st' bodyAlice2 "a2" 0
          = .error (.conflict "Member with this email already exists") :=
  c7_email_uniqueness [] bodyAlice bodyAlice2 "a1" "a2" 0 0
    (by decide) rfl

theorem find_map_of_id (st : List Member) (id : String) (f : Member → Member)
    (hf : ∀ x, (f x).id = x.id) :
    (st.map f).find? (fun x => x.id == id)
      = (st.find? (fun x => x.id == id)).map f := by
  induction st with
  | nil => rfl
  | cons a t ih =>
    cases h : (a.id == id)
    · rw [List.map_cons, List.find?_cons_of_neg, List.find?_cons_of_neg]
      · exact ih
      · simp [h]
      · simp [hf a, h]
    · rw [List.map_cons, List.find?_cons_of_pos, List.find?_cons_of_pos]
      · rfl
      · exact h
      · rw [hf a]; exact h

/-- Claim C8: DELETE /members/:id archives the found member in place — the
resulting store still contains a member with that id, its status is
ARCHIVED, and every other field (name, age, gender, email, phone,
membership type, expiry date, join date, profile picture, id) is
unchanged; the row is never removed. -/
theorem c8_delete_soft_archive (st : List Member) (id : String) (m : Member)
    (hid : (id == "") = false)
    (hfind : st.find? (fun x => x.id == id) = some m) :
    ∃ st' m', deleteMemberStore st id = .ok st'
      ∧ st'.find? (fun x => x.id == id) = some m'
      ∧ m'.status = .ARCHIVED
      ∧ m'.name = m.name ∧ m'.age = m.age ∧ m'.gender = m.gender
      ∧ m'.email = m.email ∧ m'.phone = m.phone
      ∧ m'.membershipType = m.membershipType
      ∧ m'.expiryDate = m.expiryDate ∧ m'.joinDate = m.joinDate
      ∧ m'.profilePicture = m.profilePicture ∧ m'.id = m.id := by
  have hf : ∀ x : Member,
      ((if x.id == id then { x with status := MemberStatus.ARCHIVED }
        else x) : Member).id = x.id := by
    intro x
    split <;> rfl
  have hpm : (m.id == id) = true := by
    have h := List.find?_some hfind
    simpa using h
  refine ⟨st.map (fun x =>
      if x.id == id then { x with status := MemberStatus.ARCHIVED } else x),
    { m with status := .ARCHIVED }, ?_, ?_, rfl, rfl, rfl, rfl,
    rfl, rfl, rfl, rfl, rfl, rfl, rfl⟩
  · unfold deleteMemberStore
    simp [hid, hfind]
  · rw [find_map_of_id st id _ hf, hfind]
    simp [hpm]
    intro hcon
    exact absurd (beq_iff_eq.mp hpm) hcon

theorem c8_delete_soft_archive_witness :
    ∃ st' m', deleteMemberStore [plainSample] "m3" = .ok st'
      ∧ st'.find? (fun x => x.id == "m3") = some m'
      ∧ m'.status = .ARCHIVED
      ∧ m'.name = plainSample.name ∧ m'.age = plainSample.age
      ∧ m'.gender = plainSample.gender
      ∧ m'.email = plainSample.email ∧ m'.phone = plainSample.phone
      ∧ m'.membershipType = plainSample.membershipType
      ∧ m'.expiryDate = plainSample.expiryDate
      ∧ m'.joinDate = plainSample.joinDate
      ∧ m'.profilePicture = plainSample.profilePicture
      ∧ m'.id = plainSample.id :=
  c8_delete_soft_archive [plainSample] "m3" plainSample rfl rfl

theorem sum_map_add {α : Type} (l : List α) (f g : α → Nat) :
    (l.map (fun i => f i + g i)).sum = (l.map f).sum + (l.map g).sum := by
  induction l with
  | nil => rfl
  | cons a t ih =>
    simp only [List.map_cons, List.sum_cons, ih]
    omega

theorem sum_indicator_range (j : Nat) (hj : j < 12) :
    ((List.range 12).map (fun i => if j == i then (1 : Nat) else 0)).sum
      = 1 := by
  interval_cases j <;> rfl

theorem monthly_newMembers_sum (year : Int) (members : List MemberRow) :
    ((List.range 12).map (fun i => members.countP (fun m =>
        m.joinDate.year == year && m.joinDate.month.val == i))).sum
      = members.countP (fun m => m.joinDate.year == year) := by
  induction members with
  | nil => rfl
  | cons a t ih =>
    simp only [List.countP_cons]
    rw [sum_map_add, ih]
    have h2 : ((List.range 12).map (fun i =>
        if (a.joinDate.year == year && a.joinDate.month.val == i) then (1 : Nat)
        else 0)).sum
        = if (a.joinDate.year == year) then 1 else 0 := by
      cases hy : a.joinDate.year == year
      · simp [hy]
      · simp only [hy, Bool.true_and, if_true]
        exact sum_indicator_range a.joinDate.month.val a.joinDate.month.isLt
    rw [h2]

theorem find_month_drop {B : Type} (q : Nat → Bool) (v : Nat → B) (i : Nat)
    (hq : q i = true) (L : List Nat) :
    ((L.filterMap (fun j => if q j then none else some (j + 1, v j))).find?
      (fun s => s.1 == i + 1)) = none := by
  induction L with
  | nil => rfl
  | cons j t ih =>
    cases hqj : q j
    · simp only [List.filterMap_cons, hqj, Bool.false_eq_true, if_false]
      rw [List.find?_cons_of_neg]
      · exact ih
      · intro hc
        have hji : j + 1 = i + 1 := beq_iff_eq.mp hc
        have hj : j = i := by omega
        subst hj
        rw [hq] at hqj
        cases hqj
    · simp only [List.filterMap_cons, hqj, if_true]
      exact ih

theorem find_month_keep {B : Type} (q : Nat → Bool) (v : Nat → B) (i : Nat)
    (hq : q i = false) (L : List Nat) :
    i ∈ L →
    ((L.filterMap (fun j => if q j then none else some (j + 1, v j))).find?
      (fun s => s.1 == i + 1)) = some (i + 1, v i) := by
  induction L with
  | nil => intro h; cases h
  | cons j t ih =>
    intro hmem
    cases hqj : q j
    · cases hji : (j + 1 == i + 1)
      · have hmem2 : i ∈ t := by
          rcases List.mem_cons.mp hmem with h | h
          · exfalso
            subst h
            simp at hji
          · exact h
        simp only [List.filterMap_cons, hqj, Bool.false_eq_true, if_false]
        rw [List.find?_cons_of_neg]
        · exact ih hmem2
        · simp [hji]
      · have hj : j = i := by
          have := beq_iff_eq.mp hji
          omega
        subst hj
        simp only [List.filterMap_cons, hqj, Bool.false_eq_true, if_false]
        rw [List.find?_cons_of_pos]
        exact hji
    · have hmem2 : i ∈ t := by
        rcases List.mem_cons.mp hmem with h | h
        · exfalso
          subst h
          rw [hq] at hqj
          cases hqj
        · exact h
      simp only [List.filterMap_cons, hqj, if_true]
      exact ih hmem2

theorem membersMonthRows_lookup (year : Int) (ms : List MemberRow) (i : Nat)
    (hi : i < 12) :
    monthRowLookupNat (membersMonthRows year ms) (i + 1)
      = ms.countP (fun m =>
          m.joinDate.year == year && m.joinDate.month.val == i) := by
  unfold monthRowLookupNat membersMonthRows
  cases hz : (ms.countP (fun m =>
      m.joinDate.year == year && m.joinDate.month.val == i) == 0)
  · rw [find_month_keep
      (fun j => ms.countP (fun m =>
        m.joinDate.year == year && m.joinDate.month.val == j) == 0)
      (fun j => ms.countP (fun m =>
        m.joinDate.year == year && m.joinDate.month.val == j))
      i hz (List.range 12) (List.mem_range.mpr hi)]
  · rw [find_month_drop
      (fun j => ms.countP (fun m =>
        m.joinDate.year == year && m.joinDate.month.val == j) == 0)
      (fun j => ms.countP (fun m =>
        m.joinDate.year == year && m.joinDate.month.val == j))
      i hz (List.range 12)]
    exact (beq_iff_eq.mp hz).symm

/-- Claim C9: GET /dashboard/monthly-stats always returns exactly 12 points
ordered January through December (month numbers 1-12 with the chronological
labels); each new-member entry is exactly the count of members joining in
that month of the year, so buckets with no matching rows report zero (a
year with no members gives 12 zero new-member points, and an empty store
gives 12 all-zero points — never an empty list); and the per-bucket
new-member counts sum to the number of members who joined in that year. -/
theorem c9_monthly_stats (year : Int) (members : List MemberRow)
    (payments : List PaymentRow) (checkIns : List CheckInRow) :
    (monthlyStatsHandler year members payments checkIns).length = 12
    ∧ (monthlyStatsHandler year members payments checkIns).map
        MonthlyStatPoint.monthNumber = (List.range 12).map (fun i => i + 1)
    ∧ (monthlyStatsHandler year members payments checkIns).map
        MonthlyStatPoint.month = monthNames
    ∧ (monthlyStatsHandler year members payments checkIns).map
        MonthlyStatPoint.newMembers
        = (List.range 12).map (fun i => members.countP (fun m =>
            m.joinDate.year == year && m.joinDate.month.val == i))
    ∧ ((monthlyStatsHandler year [] payments checkIns).all
        (fun b => b.newMembers == 0)) = true
    ∧ ((monthlyStatsHandler year [] [] []).all
        (fun b => b.newMembers == 0 && b.revenue == 0
          && b.checkIns == JsNum.num 0)) = true
    ∧ ((monthlyStatsHandler year members payments checkIns).map
          MonthlyStatPoint.newMembers).sum
        = members.countP (fun m => m.joinDate.year == year) := by
  have hmap : (monthlyStatsHandler year members payments checkIns).map
      MonthlyStatPoint.newMembers
      = (List.range 12).map (fun i => members.countP (fun m =>
          m.joinDate.year == year && m.joinDate.month.val == i)) := by
    unfold monthlyStatsHandler
    rw [List.map_map]
    apply List.map_congr_left
    intro i hi
    exact membersMonthRows_lookup year members i (List.mem_range.mp hi)
  refine ⟨rfl, rfl, rfl, hmap, rfl, rfl, ?_⟩
  rw [hmap]
  exact monthly_newMembers_sum year members
